import Mathlib

/-!
Verification of the camera_service motion-detection core.

Shallow embedding of:
- src/detector/detector.py : diff_ratio_between_two_frames and the
  motion_detection_process loop (state machine, statistics, event queue);
- src/capture/capture_to_frame.py : the frame-reader backoff logic.

Times are modelled as naturals (seconds since some epoch); ratios as
rationals; the event queue's accept/reject outcome of each timed put is an
input of the step (the loop only observes whether queue.put raised Full).
-/

namespace CameraService

/-- DIFF_RATIO_THREASHOLD = 0.05 (detector.py line 20; source spelling kept). -/
def DIFF_RATIO_THREASHOLD : ℚ := mkRat 5 100

/-- EventType enum (detector.py lines 23-25). -/
inductive EventType where
  | MOTION
  | NO_FRAME
  deriving DecidableEq

/-- CurrentState enum (detector.py lines 33-35). -/
inductive CurrentState where
  | STATIC
  | MOTION
  deriving DecidableEq

/-- A grayscale frame: its numpy shape (list of dimensions) and its
flattened pixel buffer; numpy's .size is the length of the flattened buffer. -/
structure GrayFrame where
  shape : List Nat
  pixels : List Nat
  deriving DecidableEq

/-- cv2.absdiff: element-wise absolute difference of two (flattened) buffers. -/
def absdiff (a b : List Nat) : List Nat :=
  List.zipWith (fun x y => max x y - min x y) a b

/-- cv2.threshold(.., 25, 255, THRESH_BINARY): pixels strictly above 25
become 255, the rest 0 (detector.py line 81). -/
def threshold_binary (xs : List Nat) : List Nat :=
  xs.map (fun x => if 25 < x then 255 else 0)

/-- cv2.countNonZero: number of non-zero entries. -/
def countNonZero (xs : List Nat) : Nat :=
  xs.countP (fun x => x != 0)

/-- Result of diff_ratio_between_two_frames.  The Python function is
annotated -> float but returns the bool False on a shape mismatch
(detector.py line 76); in the numeric comparison at the call site Python
coerces False to 0. -/
inductive DiffResult where
  | boolFalse
  | ratioOf (q : ℚ)
  deriving DecidableEq

/-- Python numeric coercion used when the caller evaluates
diff_ratio > DIFF_RATIO_THREASHOLD: False compares as 0. -/
def DiffResult.toComparable : DiffResult → ℚ
  | DiffResult.boolFalse => 0
  | DiffResult.ratioOf q => q

/-- diff_ratio_between_two_frames (detector.py lines 70-92): on a shape
mismatch it logs a warning and returns False; otherwise it thresholds the
absolute difference and returns countNonZero / base.size. -/
def diff_ratio_between_two_frames (base_gray_frame current_gray_frame : GrayFrame) :
    DiffResult :=
  if base_gray_frame.shape ≠ current_gray_frame.shape then
    DiffResult.boolFalse
  else
    let frame_diff := absdiff base_gray_frame.pixels current_gray_frame.pixels
    let thresh := threshold_binary frame_diff
    let non_zero_count := countNonZero thresh
    let total_pixels := base_gray_frame.pixels.length
    DiffResult.ratioOf (mkRat non_zero_count total_pixels)

/-- DetectStatistics (detector.py lines 37-48). -/
structure DetectStatistics where
  cap_connect_count : Nat
  total_frames : Nat
  check_frames : Nat
  ignored_frames : Nat
  motion_frames : Nat
  static_frames : Nat
  motion_event_count : Nat
  deriving DecidableEq

/-- A frame as delivered to the detection loop, abstracted to what the loop
observes: the classification result of diff_ratio_between_two_frames on its
resized/grayscale version, an identity for the raw buffer, and the capture
time (time.time() at processing). -/
structure FrameInput where
  diff : DiffResult
  fid : Nat
  time : Nat
  deriving DecidableEq

/-- MotionEvent (detector.py lines 27-31); the snapshot_img field is
modelled by the frame whose buffer was written under that file name
(none when snapshot_img_name stayed the empty string). -/
structure MotionEvent where
  event_type : EventType
  start_timestamp : Nat
  end_timestamp : Nat
  snapshot_img : Option FrameInput
  deriving DecidableEq

/-- The mutable locals of motion_detection_process that drive the state
machine (detector.py lines 179-215); max_diff is the variable named
max_diff_ratio in the source. -/
structure LoopState where
  state : CurrentState
  motion_start_time : Option Nat
  motion_end_time : Option Nat
  max_diff : ℚ
  snapshot_frame : Option FrameInput
  statistics : DetectStatistics
  deriving DecidableEq

/-- Initial values (detector.py lines 179-195, 214-215). -/
def initState : LoopState where
  state := CurrentState.STATIC
  motion_start_time := none
  motion_end_time := none
  max_diff := 0
  snapshot_frame := none
  statistics := ⟨0, 0, 0, 0, 0, 0, 0⟩

/-- The episode-closing block shared by the like-base branch
(detector.py lines 253-280) and the queue-empty branch (lines 303-330):
set state to STATIC, record the end time, write and reset the snapshot if
present, then, when a start time exists, attempt the timed put (emitting
the event only when the queue accepts, incrementing motion_event_count
only then) and clear the start/end times. -/
def closeEpisode (s : LoopState) (kind : EventType) (now : Nat) (qAccept : Bool) :
    LoopState × List MotionEvent :=
  let s1 := { s with state := CurrentState.STATIC, motion_end_time := some now }
  let snap := s1.snapshot_frame
  let s2 :=
    match snap with
    | some _ => { s1 with snapshot_frame := none, max_diff := 0 }
    | none => s1
  match s2.motion_start_time with
  | some st =>
    let s3 :=
      if qAccept then
        { s2 with statistics :=
            { s2.statistics with
                motion_event_count := s2.statistics.motion_event_count + 1 } }
      else s2
    ({ s3 with motion_start_time := none, motion_end_time := none },
      if qAccept then [⟨kind, st, now, snap⟩] else [])
  | none => (s2, [])

/-- One iteration of the loop on a delivered frame (detector.py
lines 220-294).  total_frames and check_frames are incremented, the frame
is classified against the base frame (dr is the local diff_ratio;
is_like_base_frame is false exactly when dr > DIFF_RATIO_THREASHOLD), then
the state machine acts.  The periodic statistics dump (lines 226-230) only
logs and is omitted. -/
def stepFrame (s : LoopState) (fi : FrameInput) (qAccept : Bool) :
    LoopState × List MotionEvent :=
  let s0 := { s with statistics :=
      { s.statistics with
          total_frames := s.statistics.total_frames + 1,
          check_frames := s.statistics.check_frames + 1 } }
  let dr := fi.diff.toComparable
  let is_like_base_frame : Bool := if dr > DIFF_RATIO_THREASHOLD then false else true
  if is_like_base_frame then
    let s1 := { s0 with statistics :=
        { s0.statistics with static_frames := s0.statistics.static_frames + 1 } }
    match s1.state with
    | CurrentState.STATIC => (s1, [])
    | CurrentState.MOTION => closeEpisode s1 EventType.MOTION fi.time qAccept
  else
    let s1 :=
      if dr > s0.max_diff then
        { s0 with max_diff := dr, snapshot_frame := some fi }
      else s0
    let s2 := { s1 with statistics :=
        { s1.statistics with motion_frames := s1.statistics.motion_frames + 1 } }
    match s2.state with
    | CurrentState.STATIC =>
      ({ s2 with state := CurrentState.MOTION, motion_start_time := some fi.time }, [])
    | CurrentState.MOTION => (s2, [])

/-- One iteration on a queue.Empty timeout (detector.py lines 296-330):
no statistics counter is touched; in STATIC nothing happens; in MOTION the
episode closes with kind NO_FRAME and end time datetime.now(). -/
def stepTimeout (s : LoopState) (now : Nat) (qAccept : Bool) :
    LoopState × List MotionEvent :=
  match s.state with
  | CurrentState.STATIC => (s, [])
  | CurrentState.MOTION => closeEpisode s EventType.NO_FRAME now qAccept

/-- An input to the detection loop: either a delivered frame or a
queue-empty timeout, each together with whether the event queue would
accept a put attempted during this iteration. -/
inductive LoopInput where
  | frame (fi : FrameInput) (qAccept : Bool)
  | timeout (now : Nat) (qAccept : Bool)
  deriving DecidableEq

/-- Whether the queue accepts the put of this iteration. -/
def LoopInput.accepts : LoopInput → Bool
  | LoopInput.frame _ q => q
  | LoopInput.timeout _ q => q

/-- Dispatch one loop iteration. -/
def step (s : LoopState) : LoopInput → LoopState × List MotionEvent
  | LoopInput.frame fi q => stepFrame s fi q
  | LoopInput.timeout t q => stepTimeout s t q

/-- Run the loop over a finite input sequence, collecting emitted events
in order. -/
def runFrom (s : LoopState) : List LoopInput → LoopState × List MotionEvent
  | [] => (s, [])
  | i :: rest =>
    let r := step s i
    let r2 := runFrom r.1 rest
    (r2.1, r.2 ++ r2.2)

/-- Number of MOTION→STATIC transitions (completed round trips) along a run. -/
def closures (s : LoopState) : List LoopInput → Nat
  | [] => 0
  | i :: rest =>
    let s' := (step s i).1
    (if s.state = CurrentState.MOTION ∧ s'.state = CurrentState.STATIC then 1 else 0)
      + closures s' rest

/-- Invariant: whenever the state is MOTION, a start time is recorded
(set on every STATIC→MOTION transition, detector.py line 291). -/
def StartInv (s : LoopState) : Prop :=
  s.state = CurrentState.MOTION → s.motion_start_time.isSome

/-- Episode-tracking invariant: either no best frame is held and the best
score is 0 (as after a reset), or the held frame is exactly the one whose
diff ratio equals the best score and an episode is open. -/
def SnapInv (s : LoopState) : Prop :=
  (s.snapshot_frame = none ∧ s.max_diff = 0) ∨
  (∃ f, s.snapshot_frame = some f ∧ f.diff.toComparable = s.max_diff ∧
    s.state = CurrentState.MOTION)

/-- Statistics invariant: check_frames tracks total_frames, every counted
frame lands in exactly one of motion_frames/static_frames, and the
ignored/connect counters are never advanced. -/
def StatsInv (st : DetectStatistics) : Prop :=
  st.check_frames = st.total_frames ∧
  st.motion_frames + st.static_frames = st.check_frames ∧
  st.ignored_frames = 0 ∧
  st.cap_connect_count = 0

/-! Frame-reader backoff model (src/capture/capture_to_frame.py). -/

/-- RECONNECT_DELAY_SECONDS = 10 (capture_to_frame.py line 17), in seconds. -/
def RECONNECT_DELAY_SECONDS : ℚ := 10

/-- max_consecutive_read_errors = 5 (capture_to_frame.py line 34). -/
def max_consecutive_read_errors : Nat := 5

/-- Reader-thread locals relevant to backoff: whether a capture handle is
currently held open, and the consecutive read-error counter. -/
structure ReaderState where
  capOpen : Bool
  consecutive_read_errors : Nat
  deriving DecidableEq

/-- The read-failure path (capture_to_frame.py lines 56-67): increment the
error counter, release and discard the capture handle, then wait
RECONNECT_DELAY_SECONDS * 2 when the counter has reached
max_consecutive_read_errors, else RECONNECT_DELAY_SECONDS / 2.  Returns the
new state and the wait in seconds. -/
def readFailureStep (s : ReaderState) : ReaderState × ℚ :=
  let e := s.consecutive_read_errors + 1
  (⟨false, e⟩,
    if e ≥ max_consecutive_read_errors then RECONNECT_DELAY_SECONDS * 2
    else RECONNECT_DELAY_SECONDS / 2)

/-- The open-failure path waits RECONNECT_DELAY_SECONDS
(capture_to_frame.py lines 46-50). -/
def openFailureDelay : ℚ := RECONNECT_DELAY_SECONDS

/-! Concrete inputs used by the scenario claims. -/

/-- A base gray frame of shape 2×2. -/
def mismatchBase : GrayFrame := ⟨[2, 2], [0, 0, 0, 0]⟩

/-- An incoming gray frame of shape 1×1, mismatching mismatchBase. -/
def mismatchCur : GrayFrame := ⟨[1, 1], [200]⟩

/-- A like-base frame (diff ratio 0.01 ≤ 0.05) at time t. -/
def likeFrame (t : Nat) : FrameInput := ⟨DiffResult.ratioOf (mkRat 1 100), t, t⟩

/-- The non-matching frame with ratio 0.1 at time 3. -/
def c3frameA : FrameInput := ⟨DiffResult.ratioOf (mkRat 1 10), 3, 3⟩

/-- The non-matching frame with ratio 0.3 at time 4. -/
def c3frameB : FrameInput := ⟨DiffResult.ratioOf (mkRat 3 10), 4, 4⟩

/-- Scenario [like, like, different(0.1), different(0.3), like], queue
accepting every put. -/
def c3trace : List LoopInput :=
  [LoopInput.frame (likeFrame 1) true, LoopInput.frame (likeFrame 2) true,
    LoopInput.frame c3frameA true, LoopInput.frame c3frameB true,
    LoopInput.frame (likeFrame 5) true]

/-- The non-matching frame with ratio 0.1 at time 1 of the NO_FRAME scenario. -/
def c4frame : FrameInput := ⟨DiffResult.ratioOf (mkRat 1 10), 1, 1⟩

/-- Scenario [different, queue timeout]; the timeout fires at time 2. -/
def c4traceShort : List LoopInput :=
  [LoopInput.frame c4frame true, LoopInput.timeout 2 true]

/-- Scenario [different, queue timeout, like]. -/
def c4trace : List LoopInput :=
  c4traceShort ++ [LoopInput.frame (likeFrame 3) true]

/-- A trace with one complete round trip, used to witness the event-count
theorem. -/
def c1trace : List LoopInput :=
  [LoopInput.frame c4frame true, LoopInput.frame (likeFrame 2) true]

/-- A tiny well-formed gray frame used to witness the ratio bounds. -/
def c7frame : GrayFrame := ⟨[1, 2], [10, 40]⟩

/-- A mid-episode loop state (open episode with a held snapshot), used to
witness the queue-full theorem. -/
def c8state : LoopState where
  state := CurrentState.MOTION
  motion_start_time := some 1
  motion_end_time := none
  max_diff := mkRat 1 10
  snapshot_frame := some c4frame
  statistics := ⟨0, 1, 1, 0, 1, 0, 0⟩

/-! Helper lemmas. -/

lemma closeEpisode_state (s : LoopState) (k : EventType) (n : Nat) (q : Bool) :
    (closeEpisode s k n q).1.state = CurrentState.STATIC := by
  unfold closeEpisode
  cases hs : s.snapshot_frame <;> cases hm : s.motion_start_time <;> cases q <;>
    simp [hs, hm]

lemma closeEpisode_frame_counters (s : LoopState) (k : EventType) (n : Nat) (q : Bool) :
    (closeEpisode s k n q).1.statistics.total_frames = s.statistics.total_frames ∧
    (closeEpisode s k n q).1.statistics.check_frames = s.statistics.check_frames ∧
    (closeEpisode s k n q).1.statistics.motion_frames = s.statistics.motion_frames ∧
    (closeEpisode s k n q).1.statistics.static_frames = s.statistics.static_frames ∧
    (closeEpisode s k n q).1.statistics.ignored_frames = s.statistics.ignored_frames ∧
    (closeEpisode s k n q).1.statistics.cap_connect_count = s.statistics.cap_connect_count := by
  unfold closeEpisode
  cases hs : s.snapshot_frame <;> cases hm : s.motion_start_time <;> cases q <;>
    simp [hs, hm]

lemma closeEpisode_reject (s : LoopState) (k : EventType) (n : Nat) :
    (closeEpisode s k n false).2 = [] ∧
    (closeEpisode s k n false).1.statistics.motion_event_count
      = s.statistics.motion_event_count := by
  unfold closeEpisode
  cases hs : s.snapshot_frame <;> cases hm : s.motion_start_time <;> simp [hs, hm]

lemma closeEpisode_events (s : LoopState) (k : EventType) (n : Nat) (st : Nat)
    (hm : s.motion_start_time = some st) :
    (closeEpisode s k n true).2 = [⟨k, st, n, s.snapshot_frame⟩] := by
  unfold closeEpisode
  cases hs : s.snapshot_frame <;> simp [hs, hm]

lemma closeEpisode_events_length (s : LoopState) (k : EventType) (n : Nat) (q : Bool)
    (hm : s.motion_start_time.isSome) :
    (closeEpisode s k n q).2.length = if q then 1 else 0 := by
  unfold closeEpisode
  cases hs : s.snapshot_frame <;> cases hm' : s.motion_start_time <;> cases q <;>
    simp_all

lemma closeEpisode_reset (s : LoopState) (k : EventType) (n : Nat) (q : Bool)
    (hsnap : s.snapshot_frame.isSome) (hm : s.motion_start_time.isSome) :
    (closeEpisode s k n q).1.snapshot_frame = none ∧
    (closeEpisode s k n q).1.max_diff = 0 ∧
    (closeEpisode s k n q).1.motion_start_time = none := by
  unfold closeEpisode
  cases hs : s.snapshot_frame <;> cases hm' : s.motion_start_time <;> cases q <;>
    simp_all

set_option maxRecDepth 8000 in
lemma step_startInv (s : LoopState) (i : LoopInput) (h : StartInv s) :
    StartInv (step s i).1 := by
  unfold StartInv at h ⊢
  cases i with
  | frame fi a =>
    unfold step stepFrame closeEpisode
    cases hst : s.state <;>
      cases hsnap : s.snapshot_frame <;>
      cases hstart : s.motion_start_time <;>
      cases a <;>
      simp only [hst, hsnap, hstart] <;>
      (try split_ifs) <;>
      (first
        | rfl
        | (exact fun hF => hF.elim)
        | (simp; done)
        | (simp [hstart] at h; exact (h hst).elim)
        | (simp_all; done))
  | timeout t a =>
    unfold step stepTimeout closeEpisode
    cases hst : s.state <;>
      cases hsnap : s.snapshot_frame <;>
      cases hstart : s.motion_start_time <;>
      cases a <;>
      simp only [hst, hsnap, hstart] <;>
      (try split_ifs) <;>
      (first
        | rfl
        | (exact fun hF => hF.elim)
        | (simp; done)
        | (simp [hstart] at h; exact (h hst).elim)
        | (simp_all; done))

set_option maxRecDepth 8000 in
lemma step_events_length (s : LoopState) (i : LoopInput) (h : StartInv s)
    (ha : i.accepts = true) :
    (step s i).2.length =
      if s.state = CurrentState.MOTION ∧ (step s i).1.state = CurrentState.STATIC
      then 1 else 0 := by
  unfold StartInv at h
  cases i with
  | frame fi a =>
    cases a with
    | false => cases ha
    | true =>
      unfold step stepFrame closeEpisode
      by_cases hgt : fi.diff.toComparable > DIFF_RATIO_THREASHOLD <;>
        by_cases hmax : fi.diff.toComparable > s.max_diff <;>
        cases hst : s.state <;>
        cases hsnap : s.snapshot_frame <;>
        cases hstart : s.motion_start_time <;>
        (first
          | (simp [hgt, hmax, hst, hsnap, hstart]; done)
          | (simp [hstart] at h; exact (h hst).elim))
  | timeout t a =>
    cases a with
    | false => cases ha
    | true =>
      unfold step stepTimeout closeEpisode
      cases hst : s.state <;>
        cases hsnap : s.snapshot_frame <;>
        cases hstart : s.motion_start_time <;>
        (first
          | (simp [hst, hsnap, hstart]; done)
          | (simp [hstart] at h; exact (h hst).elim))

lemma runFrom_events_length (trace : List LoopInput) :
    ∀ s : LoopState, StartInv s → (∀ i ∈ trace, i.accepts = true) →
      (runFrom s trace).2.length = closures s trace := by
  induction trace with
  | nil => intro s _ _; rfl
  | cons i rest ih =>
    intro s h ha
    have hai : i.accepts = true := ha i (by simp)
    have harest : ∀ j ∈ rest, j.accepts = true := fun j hj => ha j (by simp [hj])
    simp only [runFrom, closures, List.length_append]
    rw [step_events_length s i h hai, ih _ (step_startInv s i h) harest]

set_option maxRecDepth 8000 in
lemma step_statsInv (s : LoopState) (i : LoopInput) (h : StatsInv s.statistics) :
    StatsInv (step s i).1.statistics := by
  unfold StatsInv at h ⊢
  cases i with
  | frame fi a =>
    unfold step stepFrame closeEpisode
    by_cases hgt : fi.diff.toComparable > DIFF_RATIO_THREASHOLD <;>
      by_cases hmax : fi.diff.toComparable > s.max_diff <;>
      cases hst : s.state <;>
      cases hsnap : s.snapshot_frame <;>
      cases hstart : s.motion_start_time <;>
      cases a <;>
      (simp [hgt, hmax, hst, hsnap, hstart]; omega)
  | timeout t a =>
    unfold step stepTimeout closeEpisode
    cases hst : s.state <;>
      cases hsnap : s.snapshot_frame <;>
      cases hstart : s.motion_start_time <;>
      cases a <;>
      (first
        | (simp [hst, hsnap, hstart]; done)
        | (simp [hst, hsnap, hstart]; omega))

lemma runFrom_statsInv (trace : List LoopInput) :
    ∀ s : LoopState, StatsInv s.statistics →
      StatsInv (runFrom s trace).1.statistics := by
  induction trace with
  | nil => intro s h; exact h
  | cons i rest ih =>
    intro s h
    exact ih _ (step_statsInv s i h)

set_option maxRecDepth 8000 in
lemma step_snapInv (s : LoopState) (i : LoopInput) (h : SnapInv s) :
    SnapInv (step s i).1 := by
  unfold SnapInv at h ⊢
  cases i with
  | frame fi a =>
    unfold step stepFrame closeEpisode
    by_cases hgt : fi.diff.toComparable > DIFF_RATIO_THREASHOLD <;>
      by_cases hmax : fi.diff.toComparable > s.max_diff <;>
      cases hst : s.state <;>
      cases hsnap : s.snapshot_frame <;>
      cases hstart : s.motion_start_time <;>
      cases a <;>
      (first
        | (simp [hgt, hmax, hst, hsnap, hstart]; done)
        | (simp [hgt, hmax, hst, hsnap, hstart] at h ⊢; done)
        | (simp [hgt, hmax, hst, hsnap, hstart] at h ⊢; tauto))
  | timeout t a =>
    unfold step stepTimeout closeEpisode
    cases hst : s.state <;>
      cases hsnap : s.snapshot_frame <;>
      cases hstart : s.motion_start_time <;>
      cases a <;>
      (first
        | (simp [hst, hsnap, hstart]; done)
        | (simp [hst, hsnap, hstart] at h ⊢; done)
        | (simp [hst, hsnap, hstart] at h ⊢; tauto))

lemma runFrom_snapInv (trace : List LoopInput) :
    ∀ s : LoopState, SnapInv s → SnapInv (runFrom s trace).1 := by
  induction trace with
  | nil => intro s h; exact h
  | cons i rest ih =>
    intro s h
    exact ih _ (step_snapInv s i h)

set_option maxRecDepth 8000 in
lemma stepFrame_max_mono (s : LoopState) (fi : FrameInput) (a : Bool)
    (h : (stepFrame s fi a).1.state = CurrentState.MOTION) :
    s.max_diff ≤ (stepFrame s fi a).1.max_diff := by
  revert h
  unfold stepFrame closeEpisode
  by_cases hgt : fi.diff.toComparable > DIFF_RATIO_THREASHOLD <;>
    by_cases hmax : fi.diff.toComparable > s.max_diff <;>
    cases hst : s.state <;>
    cases hsnap : s.snapshot_frame <;>
    cases hstart : s.motion_start_time <;>
    cases a <;>
    (first
      | (simp [hgt, hmax, hst, hsnap, hstart]; done)
      | (simp [hgt, hmax, hst, hsnap, hstart]; linarith)
      | (intro hM; simp [hgt, hmax, hst, hsnap, hstart] at hM))

/-- C2: on a shape mismatch diff_ratio_between_two_frames returns the
Python bool False, which the call site compares as 0, so
0 > DIFF_RATIO_THREASHOLD is false and the frame is classified as LIKE the
base frame: the loop takes the is_like_base = true branch (static_frames
incremented, state stays STATIC), not the is_like_base = false branch the
claim describes. -/
theorem shape_mismatch_is_classified_like_base :
    diff_ratio_between_two_frames mismatchBase mismatchCur = DiffResult.boolFalse ∧
    DiffResult.toComparable
      (diff_ratio_between_two_frames mismatchBase mismatchCur) = 0 ∧
    ¬ DIFF_RATIO_THREASHOLD <
      DiffResult.toComparable (diff_ratio_between_two_frames mismatchBase mismatchCur) ∧
    (stepFrame initState
      ⟨diff_ratio_between_two_frames mismatchBase mismatchCur, 7, 1⟩ true).1.state
      = CurrentState.STATIC ∧
    (stepFrame initState
      ⟨diff_ratio_between_two_frames mismatchBase mismatchCur, 7, 1⟩ true).1.statistics.static_frames
      = 1 ∧
    (stepFrame initState
      ⟨diff_ratio_between_two_frames mismatchBase mismatchCur, 7, 1⟩ true).1.statistics.motion_frames
      = 0 := by
  decide

/-- C3: on [like, like, different(0.1), different(0.3), like] starting in
STATIC, exactly one MotionEvent is emitted, of kind MOTION, its snapshot is
the ratio-0.3 frame (the episode maximum), and its start timestamp 3
precedes its end timestamp 5. -/
theorem single_episode_emits_one_event_with_max_snapshot :
    (runFrom initState c3trace).2
      = [⟨EventType.MOTION, 3, 5, some c3frameB⟩] ∧
    c3frameB.diff = DiffResult.ratioOf (mkRat 3 10) ∧
    (3 : Nat) < 5 := by
  decide

/-- C4: on [different, queue timeout, like] starting in STATIC, exactly one
MotionEvent of kind NO_FRAME is emitted, already present after the timeout,
the state is STATIC after the timeout, and the final like-base frame emits
no further event. -/
theorem timeout_emits_single_no_frame_event :
    (runFrom initState c4traceShort).2 = [⟨EventType.NO_FRAME, 1, 2, some c4frame⟩] ∧
    (runFrom initState c4traceShort).1.state = CurrentState.STATIC ∧
    (runFrom initState c4trace).2 = [⟨EventType.NO_FRAME, 1, 2, some c4frame⟩] := by
  decide

/-- C6 counterexample: a queue-empty tick increments neither total_frames
nor check_frames — after the single-timeout run both counters are still 0,
not 1 as the claim requires. -/
theorem timeout_increments_no_counter :
    (runFrom initState [LoopInput.timeout 0 true]).1.statistics.total_frames = 0 ∧
    (runFrom initState [LoopInput.timeout 0 true]).1.statistics.check_frames = 0 ∧
    ¬ (runFrom initState [LoopInput.timeout 0 true]).1.statistics.total_frames = 1 := by
  decide

/-- C6 amended: every delivered frame increments total_frames and
check_frames by one and exactly one of motion_frames/static_frames, while a
queue-empty tick increments none of these counters. -/
theorem frame_and_timeout_counter_increments (s : LoopState) (fi : FrameInput)
    (t : Nat) (a b : Bool) :
    (stepFrame s fi a).1.statistics.total_frames = s.statistics.total_frames + 1 ∧
    (stepFrame s fi a).1.statistics.check_frames = s.statistics.check_frames + 1 ∧
    (((stepFrame s fi a).1.statistics.motion_frames = s.statistics.motion_frames + 1 ∧
      (stepFrame s fi a).1.statistics.static_frames = s.statistics.static_frames) ∨
     ((stepFrame s fi a).1.statistics.motion_frames = s.statistics.motion_frames ∧
      (stepFrame s fi a).1.statistics.static_frames = s.statistics.static_frames + 1)) ∧
    (stepTimeout s t b).1.statistics.total_frames = s.statistics.total_frames ∧
    (stepTimeout s t b).1.statistics.check_frames = s.statistics.check_frames ∧
    (stepTimeout s t b).1.statistics.motion_frames = s.statistics.motion_frames ∧
    (stepTimeout s t b).1.statistics.static_frames = s.statistics.static_frames := by
  by_cases hlike : DIFF_RATIO_THREASHOLD < fi.diff.toComparable <;>
    by_cases hmax : s.max_diff < fi.diff.toComparable <;>
    cases hst : s.state <;>
    cases hsnap : s.snapshot_frame <;>
    cases hstart : s.motion_start_time <;>
    cases a <;> cases b <;>
    simp [stepFrame, stepTimeout, closeEpisode, hlike, hmax, hst, hsnap, hstart]

/-- C8: when an episode closes (via a like-base frame or a timeout) and the
timed put is rejected as full, no event is emitted, motion_event_count is
unchanged, and the transition to STATIC with the full episode reset
(snapshot, best score, start time) still completes. -/
theorem queue_full_drops_event_but_still_resets (s : LoopState) (st : Nat)
    (f fi : FrameInput) (now : Nat)
    (hstate : s.state = CurrentState.MOTION)
    (hstart : s.motion_start_time = some st)
    (hsnap : s.snapshot_frame = some f)
    (hlike : ¬ DIFF_RATIO_THREASHOLD < fi.diff.toComparable) :
    (stepFrame s fi false).2 = [] ∧
    (stepFrame s fi false).1.statistics.motion_event_count
      = s.statistics.motion_event_count ∧
    (stepFrame s fi false).1.state = CurrentState.STATIC ∧
    (stepFrame s fi false).1.snapshot_frame = none ∧
    (stepFrame s fi false).1.max_diff = 0 ∧
    (stepFrame s fi false).1.motion_start_time = none ∧
    (stepTimeout s now false).2 = [] ∧
    (stepTimeout s now false).1.statistics.motion_event_count
      = s.statistics.motion_event_count ∧
    (stepTimeout s now false).1.state = CurrentState.STATIC ∧
    (stepTimeout s now false).1.snapshot_frame = none ∧
    (stepTimeout s now false).1.max_diff = 0 ∧
    (stepTimeout s now false).1.motion_start_time = none := by
  simp [stepFrame, stepTimeout, closeEpisode, hstate, hstart, hsnap, hlike]

/-- C8 witness: the queue-full theorem applied to a concrete mid-episode
state, a concrete like-base frame, and a concrete timeout. -/
theorem queue_full_drops_event_but_still_resets_witness :
    (stepFrame c8state (likeFrame 9) false).2 = [] ∧
    (stepFrame c8state (likeFrame 9) false).1.statistics.motion_event_count
      = c8state.statistics.motion_event_count ∧
    (stepFrame c8state (likeFrame 9) false).1.state = CurrentState.STATIC ∧
    (stepFrame c8state (likeFrame 9) false).1.snapshot_frame = none ∧
    (stepFrame c8state (likeFrame 9) false).1.max_diff = 0 ∧
    (stepFrame c8state (likeFrame 9) false).1.motion_start_time = none ∧
    (stepTimeout c8state 9 false).2 = [] ∧
    (stepTimeout c8state 9 false).1.statistics.motion_event_count
      = c8state.statistics.motion_event_count ∧
    (stepTimeout c8state 9 false).1.state = CurrentState.STATIC ∧
    (stepTimeout c8state 9 false).1.snapshot_frame = none ∧
    (stepTimeout c8state 9 false).1.max_diff = 0 ∧
    (stepTimeout c8state 9 false).1.motion_start_time = none :=
  queue_full_drops_event_but_still_resets c8state 1 c4frame (likeFrame 9) 9
    rfl rfl rfl (by decide)

/-- C9: on every unsuccessful read the frame reader discards its capture
handle and then waits: less than the base reconnect delay while the
consecutive-failure count is below 5, more than the base delay once it
reaches 5; an open failure waits exactly the base delay. -/
theorem frame_reader_backoff (s : ReaderState) :
    (readFailureStep s).1.capOpen = false ∧
    ((readFailureStep s).1.consecutive_read_errors < max_consecutive_read_errors →
      (readFailureStep s).2 < RECONNECT_DELAY_SECONDS) ∧
    (max_consecutive_read_errors ≤ (readFailureStep s).1.consecutive_read_errors →
      RECONNECT_DELAY_SECONDS < (readFailureStep s).2) ∧
    openFailureDelay = RECONNECT_DELAY_SECONDS := by
  refine ⟨rfl, ?_, ?_, rfl⟩
  · intro h
    simp only [readFailureStep] at h ⊢
    have hlt : ¬ s.consecutive_read_errors + 1 ≥ max_consecutive_read_errors := by
      omega
    simp only [hlt, if_false]
    norm_num [RECONNECT_DELAY_SECONDS]
  · intro h
    simp only [readFailureStep] at h ⊢
    have hge : s.consecutive_read_errors + 1 ≥ max_consecutive_read_errors := h
    simp only [hge, if_true]
    norm_num [RECONNECT_DELAY_SECONDS]

/-- C9 witness: the backoff theorem at a first failure (short wait) and at
a fifth failure (long wait). -/
theorem frame_reader_backoff_witness :
    (readFailureStep ⟨true, 0⟩).1.capOpen = false ∧
    (readFailureStep ⟨true, 0⟩).2 < RECONNECT_DELAY_SECONDS ∧
    RECONNECT_DELAY_SECONDS < (readFailureStep ⟨true, 4⟩).2 ∧
    openFailureDelay = RECONNECT_DELAY_SECONDS :=
  ⟨(frame_reader_backoff ⟨true, 0⟩).1,
    (frame_reader_backoff ⟨true, 0⟩).2.1 (by decide),
    (frame_reader_backoff ⟨true, 4⟩).2.2.1 (by decide),
    (frame_reader_backoff ⟨true, 0⟩).2.2.2⟩

/-- C1: assuming the event queue accepts every put, the number of emitted
MotionEvents over any finite input sequence equals the number of completed
STATIC→MOTION→STATIC round trips (an episode closing on a like-base frame
or on a queue-empty timeout); in particular two consecutive MOTION episodes
never merge into a single event. -/
theorem event_count_equals_round_trips (trace : List LoopInput)
    (hq : ∀ i ∈ trace, i.accepts = true) :
    (runFrom initState trace).2.length = closures initState trace :=
  runFrom_events_length trace initState
    (fun hmotion => absurd hmotion (by simp [initState])) hq

/-- C1 witness: on a concrete two-input trace with one round trip the
theorem applies and both sides equal 1. -/
theorem event_count_equals_round_trips_witness :
    (runFrom initState c1trace).2.length = closures initState c1trace ∧
    closures initState c1trace = 1 :=
  ⟨event_count_equals_round_trips c1trace (by decide), by decide⟩

/-- C5: in any reachable loop state, either no best frame is held and the
best score is 0, or the held snapshot_frame is exactly the frame whose diff
ratio equals max_diff (with an episode open); in a STATIC state both are
reset, so nothing carries into the next episode; and any frame step that
leaves the episode open does not decrease max_diff. -/
theorem best_score_monotone_and_snapshot_matches (trace : List LoopInput)
    (fi : FrameInput) (acc : Bool)
    (hopen : (stepFrame (runFrom initState trace).1 fi acc).1.state
      = CurrentState.MOTION) :
    SnapInv (runFrom initState trace).1 ∧
    ((runFrom initState trace).1.state = CurrentState.STATIC →
      (runFrom initState trace).1.snapshot_frame = none ∧
      (runFrom initState trace).1.max_diff = 0) ∧
    (runFrom initState trace).1.max_diff
      ≤ (stepFrame (runFrom initState trace).1 fi acc).1.max_diff := by
  have hsnap : SnapInv (runFrom initState trace).1 :=
    runFrom_snapInv trace initState (Or.inl ⟨rfl, rfl⟩)
  refine ⟨hsnap, ?_, stepFrame_max_mono _ fi acc hopen⟩
  intro hstatic
  rcases hsnap with ⟨h1, h2⟩ | ⟨f, _, _, hm⟩
  · exact ⟨h1, h2⟩
  · rw [hstatic] at hm
    cases hm

/-- C5 witness: the snapshot/score theorem applied to the empty trace and a
frame opening an episode. -/
theorem best_score_monotone_and_snapshot_matches_witness :
    SnapInv (runFrom initState []).1 ∧
    ((runFrom initState []).1.state = CurrentState.STATIC →
      (runFrom initState []).1.snapshot_frame = none ∧
      (runFrom initState []).1.max_diff = 0) ∧
    (runFrom initState []).1.max_diff
      ≤ (stepFrame (runFrom initState []).1 c4frame true).1.max_diff :=
  best_score_monotone_and_snapshot_matches [] c4frame true (by decide)

/-- C10: after any finite run, check_frames equals total_frames,
motion_frames + static_frames equals check_frames, and ignored_frames and
cap_connect_count are still 0. -/
theorem statistics_partition_invariant (trace : List LoopInput) :
    StatsInv (runFrom initState trace).1.statistics :=
  runFrom_statsInv trace initState ⟨rfl, rfl, rfl, rfl⟩

lemma countNonZero_threshold_absdiff_self (xs : List Nat) :
    countNonZero (threshold_binary (absdiff xs xs)) = 0 := by
  induction xs with
  | nil => rfl
  | cons x xs ih =>
    simpa [absdiff, threshold_binary, countNonZero, List.countP_cons] using ih

/-- C7: for equal-shape (hence equal-size) non-empty grayscale frames the
similarity ratio is a rational in [0, 1], and comparing a frame with itself
yields exactly 0. -/
theorem diff_ratio_in_unit_interval_and_zero_on_self
    (base cur : GrayFrame)
    (hshape : base.shape = cur.shape)
    (hlen : base.pixels.length = cur.pixels.length)
    (hpos : 0 < base.pixels.length) :
    ∃ q : ℚ, diff_ratio_between_two_frames base cur = DiffResult.ratioOf q ∧
      0 ≤ q ∧ q ≤ 1 ∧ (cur = base → q = 0) := by
  refine ⟨mkRat (countNonZero (threshold_binary (absdiff base.pixels cur.pixels)))
      base.pixels.length, ?_, ?_, ?_, ?_⟩
  · unfold diff_ratio_between_two_frames
    simp [hshape]
  · rw [Rat.mkRat_eq_div]
    positivity
  · rw [Rat.mkRat_eq_div]
    have hcount : countNonZero (threshold_binary (absdiff base.pixels cur.pixels))
        ≤ base.pixels.length := by
      calc countNonZero (threshold_binary (absdiff base.pixels cur.pixels))
          ≤ (threshold_binary (absdiff base.pixels cur.pixels)).length :=
            List.countP_le_length _
        _ = (absdiff base.pixels cur.pixels).length := List.length_map _ _
        _ = min base.pixels.length cur.pixels.length := by
              unfold absdiff
              exact List.length_zipWith _ _ _
        _ = base.pixels.length := by rw [← hlen, min_self]
    rw [div_le_one (by exact_mod_cast hpos)]
    exact_mod_cast hcount
  · intro heq
    subst heq
    rw [countNonZero_threshold_absdiff_self]
    simp

/-- C7 witness: the ratio-bounds theorem applied to a concrete frame
compared with itself. -/
theorem diff_ratio_in_unit_interval_and_zero_on_self_witness :
    ∃ q : ℚ, diff_ratio_between_two_frames c7frame c7frame = DiffResult.ratioOf q ∧
      0 ≤ q ∧ q ≤ 1 ∧ (c7frame = c7frame → q = 0) :=
  diff_ratio_in_unit_interval_and_zero_on_self c7frame c7frame rfl rfl (by decide)

end CameraService
